import Mathlib

/-!
Shallow embedding of `src/main.js` (Doodstream direct-link resolver,
class `Extension`) and proofs of the specification claims.

Modelling conventions:
 * JS strings are Lean `String`s; scanning works on `String.data`
   (`List Char`) so every operation is structural and kernel-evaluable.
 * The network is an oracle `Net : String → FetchOutcome` mapping a URL to
   the outcome of `fetch` (fulfilled with a status and body text, or
   rejected — network error / abort).  Headers are the fixed set produced
   by `getHeaders` and do not influence the oracle, exactly as in the
   pipeline where every request uses the same headers.
 * `Math.random()` draws are a stream `Nat → Fin 62`: the i-th draw is
   `Math.floor(Math.random() * RANDOM_STRING_CHARS.length)`, which lies in
   `[0, 62)` because `Math.random() < 1`.
 * The clock is `nowMs : Nat` (`Date.now()` in milliseconds).
 * Observable side effects (arming/clearing the 30 s timeout timer,
   issuing a fetch, reaching the link builder) are recorded in an event
   trace, so that claims about "no second network call" and "timer
   disarmed on every exit path" are statable.
 * Thrown JS errors are the inductive `JsError`; `JsError.message` is the
   exact message string the source code builds.
-/

deriving instance DecidableEq for Except

namespace Doodstream

/-- `const DOODSTREAM_BASE_URL = "https://dood.li"` -/
def DOODSTREAM_BASE_URL : String := "https://dood.li"

/-- `const RANDOM_STRING_CHARS = "ABC…xyz0123456789"` (62 characters). -/
def RANDOM_STRING_CHARS : String :=
  "ABCDEFGHIJKLMNOPQRSTUVWXYZabcdefghijklmnopqrstuvwxyz0123456789"

/-- `const DEFAULT_REQUEST_TIMEOUT = 30000` (milliseconds). -/
def DEFAULT_REQUEST_TIMEOUT : Nat := 30000

/-- The ASCII apostrophe character `'` (code point 39), used by the
`PASS_MD5_PATTERN` regex literal. -/
def singleQuote : Char := Char.ofNat 39

/-- The two `RegExp` constants of the source:
`PASS_MD5_PATTERN = /\$\.get\('([^']*\/pass_md5\/[^']*)'/` and
`TOKEN_PATTERN = /token=([a-zA-Z0-9]+)/`. -/
inductive Pattern : Type
  | passMd5Pattern : Pattern
  | tokenPattern : Pattern
deriving DecidableEq

/-- The regex character class `[a-zA-Z0-9]` of `TOKEN_PATTERN`. -/
def isTokenChar (c : Char) : Bool := c.isAlpha || c.isDigit

/-- The literal characters `$.get('` that `PASS_MD5_PATTERN` must match
before its capture group. -/
def passMd5Needle : List Char :=
  ['$', '.', 'g', 'e', 't', '(', singleQuote]

/-- The literal `/pass_md5/` that must occur inside the capture group of
`PASS_MD5_PATTERN`. -/
def passMd5Literal : List Char := "/pass_md5/".data

/-- The literal `token=` that `TOKEN_PATTERN` must match before its
capture group. -/
def tokenNeedle : List Char := "token=".data

/-- Substring search: does `needle` occur (contiguously) in `hay`?
Used to express the backtracking search of `[^']*\/pass_md5\/[^']*`. -/
def containsSeq (needle : List Char) : List Char → Bool
  | [] => needle.isPrefixOf []
  | c :: cs => needle.isPrefixOf (c :: cs) || containsSeq needle cs

/-- Attempt to match one of the two regexes at the start of `l`, returning
the text of capture group 1 on success.

`PASS_MD5_PATTERN` matches at a position iff the text there begins with
`$.get('`, the following maximal run of non-`'` characters contains
`/pass_md5/`, and that run is terminated by a `'` (rather than by the end
of the input); the greedy/backtracking capture group is then exactly that
run.  `TOKEN_PATTERN` matches at a position iff the text there begins with
`token=` followed by at least one `[a-zA-Z0-9]` character; the greedy
capture is the maximal alphanumeric run. -/
def matchAt : Pattern → List Char → Option (List Char)
  | .passMd5Pattern, l =>
    if passMd5Needle.isPrefixOf l then
      let rest := (l.drop passMd5Needle.length)
      let run := rest.takeWhile (fun c => c ≠ singleQuote)
      if run.length < rest.length && containsSeq passMd5Literal run then
        some run
      else
        none
    else
      none
  | .tokenPattern, l =>
    if tokenNeedle.isPrefixOf l then
      let run := (l.drop tokenNeedle.length).takeWhile isTokenChar
      if run.isEmpty then none else some run
    else
      none

/-- Leftmost-match regex search: try `matchAt` at every position of the
input, left to right, as `String.prototype.match` does. -/
def scanFirst (p : Pattern) : List Char → Option (List Char)
  | [] => matchAt p []
  | c :: cs =>
    match matchAt p (c :: cs) with
    | some r => some r
    | none => scanFirst p cs

/-- `_extractData(pattern, content)`: `content.match(pattern)` and return
capture group 1, or `null` when there is no match. -/
def extractData (p : Pattern) (content : String) : Option String :=
  (scanFirst p content.data).map fun l => ⟨l⟩

/-- Outcome of the platform `fetch` call: fulfilled with an HTTP status
and a body text, or rejected (network error, or the abort fired). -/
inductive FetchOutcome : Type
  | success (status : Nat) (body : String) : FetchOutcome
  | rejected : FetchOutcome
deriving DecidableEq

/-- The network oracle: what `fetch` does for each URL. -/
def Net : Type := String → FetchOutcome

/-- Observable pipeline events: arming the 30 s timeout timer, calling
`fetch url`, clearing the timer (`clearTimeout`), and reaching the link
builder `_buildDirectLink`. -/
inductive Event : Type
  | armTimer : Event
  | fetchCall (url : String) : Event
  | clearTimer : Event
  | buildLink : Event
deriving DecidableEq

/-- The errors thrown by `src/main.js` (all are `new Error(message)` in
the source; `fetchRejected` stands for a rejection coming out of `fetch`
itself, e.g. a network error or the `AbortError` of the timeout). -/
inductive JsError : Type
  | emptyEmbedUrl : JsError
  | httpError (status : Nat) : JsError
  | fetchRejected : JsError
  | passMd5NotFound (embedUrl : String) : JsError
  | tokenNotFound (embedUrl : String) : JsError
  | emptyVideoBaseUrl : JsError
deriving DecidableEq

/-- The exact message string the source code puts in each `Error`. -/
def JsError.message : JsError → String
  | .emptyEmbedUrl => "Embed URL cannot be empty"
  | .httpError status => "HTTP error! status: " ++ Nat.repr status
  | .fetchRejected => "fetch failed"
  | .passMd5NotFound embedUrl => "pass_md5 URL not found in " ++ embedUrl
  | .tokenNotFound embedUrl => "Token not found in " ++ embedUrl
  | .emptyVideoBaseUrl => "Empty video base URL received"

/-- `Response.ok`: status in the inclusive range 200–299. -/
def responseOk (status : Nat) : Bool := 200 ≤ status && status ≤ 299

/-- `_makeRequest(url, headers)` with its event trace.  The source arms
the timeout timer, starts `fetch`, and calls `clearTimeout` only after
`fetch` fulfills; the non-2xx check (and its throw) happens after the
timer is cleared, while a rejection of `fetch` propagates out of the
`try` block without any `clearTimeout`. -/
def makeRequest (net : Net) (url : String) :
    Except JsError (Nat × String) × List Event :=
  match net url with
  | .success status body =>
    if responseOk status then
      (.ok (status, body), [.armTimer, .fetchCall url, .clearTimer])
    else
      (.error (.httpError status), [.armTimer, .fetchCall url, .clearTimer])
  | .rejected =>
    (.error .fetchRejected, [.armTimer, .fetchCall url])

/-- `String.prototype.charAt(i)`: the one-character string at index `i`,
or the empty string when `i` is out of range. -/
def jsCharAt (s : String) (i : Nat) : String :=
  match s.data.get? i with
  | some c => ⟨[c]⟩
  | none => ""

/-- `_generateRandomString(length = 10)`: the loop
`result += RANDOM_STRING_CHARS.charAt(Math.floor(Math.random() * 62))`,
run `len` times, with `rand i` the i-th `Math.floor(Math.random() * 62)`
draw. -/
def generateRandomString (rand : Nat → Fin 62) (len : Nat := 10) : String :=
  (List.range len).foldl
    (fun result i => result ++ jsCharAt RANDOM_STRING_CHARS (rand i).val) ""

/-- Modelled platform behaviour of `String.prototype.trim`: remove
leading and trailing whitespace from the body text. -/
def jsTrim (s : String) : String :=
  ⟨((s.data.dropWhile Char.isWhitespace).reverse.dropWhile
      Char.isWhitespace).reverse⟩

/-- A character allowed after the first letter of a URL scheme
(`[a-zA-Z0-9+\-.]`, per the URL standard). -/
def isSchemeChar (c : Char) : Bool :=
  c.isAlpha || c.isDigit || c = '+' || c = '-' || c = '.'

/-- Does the reference begin with a URL scheme (a letter, then scheme
characters, then `:`)?  Such a reference is an absolute URL of its own
and is not resolved against the base. -/
def hasUrlScheme (rel : String) : Bool :=
  match rel.data with
  | [] => false
  | c :: cs => c.isAlpha && ((cs.dropWhile isSchemeChar).head? == some ':')

/-- Modelled platform behaviour of `new URL(rel, DOODSTREAM_BASE_URL).href`
for the references the pipeline can produce: a scheme-bearing reference
(e.g. `ftp://host/…`) is an absolute URL and is returned as-is (WHATWG
normalisation is not modelled; it is the identity on the `scheme://host/path`
shapes the claims exercise), a scheme-relative `//…` reference adopts the
base's scheme, a root-relative `/…` reference is appended to the base
origin, and any other relative reference is resolved against the base's
root path `/`. -/
def jsUrlResolve (rel : String) : String :=
  if hasUrlScheme rel then rel
  else if ("//".data).isPrefixOf rel.data then "https:" ++ rel
  else if ("/".data).isPrefixOf rel.data then DOODSTREAM_BASE_URL ++ rel
  else DOODSTREAM_BASE_URL ++ "/" ++ rel

/-- The `fullUrl` computation of `_extractPassMd5Url`: a fragment
starting with `"http"` is used unchanged, any other fragment is resolved
with `new URL(passMd5Url, DOODSTREAM_BASE_URL).href`. -/
def resolvedPassMd5 (passMd5Url : String) : String :=
  if ("http".data).isPrefixOf passMd5Url.data then passMd5Url
  else jsUrlResolve passMd5Url

/-- `_extractPassMd5Url(content, embedUrl)`: extract with
`PASS_MD5_PATTERN`, throw when absent, and return the resolved
`fullUrl`. -/
def extractPassMd5Url (content embedUrl : String) : Except JsError String :=
  match extractData .passMd5Pattern content with
  | none => .error (.passMd5NotFound embedUrl)
  | some passMd5Url => .ok (resolvedPassMd5 passMd5Url)

/-- `_extractToken(content, embedUrl)`: extract with `TOKEN_PATTERN`,
throw when absent. -/
def extractToken (content embedUrl : String) : Except JsError String :=
  match extractData .tokenPattern content with
  | none => .error (.tokenNotFound embedUrl)
  | some token => .ok token

/-- `_getVideoBaseUrl(passMd5Url, headers)`: fetch the pass_md5 URL, trim
the body, and throw `Empty video base URL received` when the trimmed body
is empty. -/
def getVideoBaseUrl (net : Net) (passMd5Url : String) :
    Except JsError String × List Event :=
  match makeRequest net passMd5Url with
  | (.ok (_, body), evs) =>
    let videoBaseUrl := jsTrim body
    if videoBaseUrl = "" then (.error .emptyVideoBaseUrl, evs)
    else (.ok videoBaseUrl, evs)
  | (.error e, evs) => (.error e, evs)

/-- `_buildDirectLink(videoBaseUrl, token)`:
`videoBaseUrl + randomString + "?token=" + token + "&expiry=" + expiry`
with `randomString = _generateRandomString(10)` and
`expiry = Math.floor(Date.now() / 1000)`. -/
def buildDirectLink (rand : Nat → Fin 62) (nowMs : Nat)
    (videoBaseUrl token : String) : String :=
  let randomString := generateRandomString rand 10
  let expiry := nowMs / 1000
  videoBaseUrl ++ randomString ++ "?token=" ++ token ++ "&expiry=" ++
    Nat.repr expiry

/-- `getDirectLink(embededDoodstreamLink)`: the whole pipeline, paired
with its event trace.  `none` models a `null`/`undefined` argument; the
guard `!embededDoodstreamLink` also fires on the empty string. -/
def getDirectLink (net : Net) (rand : Nat → Fin 62) (nowMs : Nat)
    (embedUrl : Option String) : Except JsError String × List Event :=
  match embedUrl with
  | none => (.error .emptyEmbedUrl, [])
  | some u =>
    if u = "" then (.error .emptyEmbedUrl, [])
    else
      match makeRequest net u with
      | (.error e, evs1) => (.error e, evs1)
      | (.ok (_, content), evs1) =>
        match extractPassMd5Url content u with
        | .error e => (.error e, evs1)
        | .ok passMd5Url =>
          match extractToken content u with
          | .error e => (.error e, evs1)
          | .ok token =>
            match getVideoBaseUrl net passMd5Url with
            | (.error e, evs2) => (.error e, evs1 ++ evs2)
            | (.ok videoBaseUrl, evs2) =>
              (.ok (buildDirectLink rand nowMs videoBaseUrl token),
               evs1 ++ evs2 ++ [.buildLink])

/-- `_getHeaders()`: the fixed request header set. -/
def getHeaders : List (String × String) :=
  [("User-Agent",
    "Mozilla/5.0 (Windows NT 10.0; Win64; x64) AppleWebKit/537.36 (KHTML, like Gecko) Chrome/120.0.0.0 Safari/537.36"),
   ("Referer", DOODSTREAM_BASE_URL ++ "/"),
   ("Origin", "https://dood.li"),
   ("Accept", "*/*"),
   ("Accept-Language", "en-US,en;q=0.9")]

/-- JS `String.prototype.split(sep)` for a one-character separator,
over character lists.  `splitOnChar sep l` is never empty. -/
def splitOnChar (sep : Char) : List Char → List (List Char)
  | [] => [[]]
  | c :: cs =>
    if c = sep then [] :: splitOnChar sep cs
    else
      match splitOnChar sep cs with
      | [] => [[c]]
      | h :: t => (c :: h) :: t

/-- Skip everything up to and including the first occurrence of `://`,
returning the host-and-path part of an absolute URL (or `none` when the
input has no scheme separator). -/
def afterSchemeSep : List Char → Option (List Char)
  | [] => none
  | c :: cs =>
    if ("://".data).isPrefixOf (c :: cs) then some (cs.drop 2)
    else afterSchemeSep cs

/-- Modelled platform behaviour of `new URL(url).pathname` for absolute
`http(s)` URLs: everything from the first `/` after `scheme://host` up to
(excluding) any `?` or `#`, or `/` when the path is empty. -/
def jsPathname (url : String) : String :=
  match afterSchemeSep url.data with
  | some hostAndPath =>
    let afterHost := hostAndPath.dropWhile (fun c => c ≠ '/')
    let path := afterHost.takeWhile (fun c => c ≠ '?' && c ≠ '#')
    if path.isEmpty then "/" else ⟨path⟩
  | none => url

/-- The object returned by `getMetadata`. -/
structure Metadata : Type where
  mp4 : String
  name : String
  quality : String
  size : Option Int
  headers : List (String × String)
deriving DecidableEq

/-- The file-name derivation inside `getMetadata`:
`pathParts = new URL(url).pathname.split("/")`,
`fileId = pathParts[pathParts.length - 1] || "video"` (the *last* element
of the split, with the falsy-fallback firing exactly when that element is
the empty string), and `fileName = doodstream_<fileId>.mp4`. -/
def deriveFileName (url : String) : String :=
  let pathParts := splitOnChar '/' (jsPathname url).data
  let lastPart : List Char := pathParts.getLastD []
  let fileId : String := if lastPart.isEmpty then "video" else ⟨lastPart⟩
  "doodstream_" ++ fileId ++ ".mp4"

/-- `getMetadata(url)`: resolve the direct link, derive the file name,
and return the metadata object.  The file size HEAD probe is commented
out in the source, so `size` is always `null`. -/
def getMetadata (net : Net) (rand : Nat → Fin 62) (nowMs : Nat)
    (url : Option String) : Except JsError Metadata × List Event :=
  match getDirectLink net rand nowMs url with
  | (.error e, evs) => (.error e, evs)
  | (.ok mp4Url, evs) =>
    let u := url.getD ""
    (.ok { mp4 := mp4Url, name := deriveFileName u, quality := "Unknown",
           size := none, headers := getHeaders }, evs)

/-- Stated from the spec's words, for comparison with the code: "the last
non-empty path segment of `embedUrl`", when one exists. -/
def lastNonEmptySegmentSpec (url : String) : Option String :=
  (((splitOnChar '/' (jsPathname url).data).filter
      (fun l => !l.isEmpty)).getLast?).map fun l => ⟨l⟩

/-- Decimal decoding of a digit string, used to invert `Nat.repr`. -/
def decodeDigits (a : Nat) (l : List Char) : Nat :=
  l.foldl (fun acc c => acc * 10 + (c.toNat - 48)) a

/-! ### Concrete fixtures used by witnesses and counterexamples -/

/-- A one-character string holding the apostrophe. -/
def sq : String := ⟨[singleQuote]⟩

def fixtureEmbedUrl : String := "https://dood.li/e/abc123"

def fixturePassFragment : String := "/pass_md5/9876/abc123"

def fixturePassUrl : String := "https://dood.li/pass_md5/9876/abc123"

def fixtureToken : String := "tok3n42"

/-- Embed-page fixture containing both a `$.get('/pass_md5/…')` call and a
`token=` parameter. -/
def fixtureContent : String :=
  "$.get(" ++ sq ++ fixturePassFragment ++ sq ++ "); makePlay token=" ++
    fixtureToken ++ "&expiry="

def fixtureVideoBase : String := "https://c1.example-cdn.net/xyz~999/"

/-- pass_md5 response body with surrounding whitespace. -/
def fixtureBody : String := " " ++ fixtureVideoBase ++ "  "

/-- Network oracle for the happy path. -/
def fixtureNet : Net := fun url =>
  if url = fixtureEmbedUrl then .success 200 fixtureContent
  else if url = fixturePassUrl then .success 200 fixtureBody
  else .rejected

/-- A concrete random stream: the i-th draw is `i % 62`. -/
def fixtureRand : Nat → Fin 62 := fun i => ⟨i % 62, Nat.mod_lt _ (by decide)⟩

/-- Embed-page fixture with a pass_md5 URL but no token. -/
def tokenlessContent : String :=
  "$.get(" ++ sq ++ fixturePassFragment ++ sq ++ "); no credential here"

def tokenlessNet : Net := fun url =>
  if url = fixtureEmbedUrl then .success 200 tokenlessContent else .rejected

/-- Oracle whose pass_md5 endpoint answers a whitespace-only body. -/
def blankBodyNet : Net := fun url =>
  if url = fixtureEmbedUrl then .success 200 fixtureContent
  else if url = fixturePassUrl then .success 200 "  \n\t "
  else .rejected

/-- Oracle answering 404 on the embed page. -/
def net404 : Net := fun url =>
  if url = fixtureEmbedUrl then .success 404 "not found" else .rejected

/-- Oracle whose second (pass_md5) fetch answers 503. -/
def net503 : Net := fun url =>
  if url = fixtureEmbedUrl then .success 200 fixtureContent
  else if url = fixturePassUrl then .success 503 "busy"
  else .rejected

/-- Oracle whose page matches neither pattern. -/
def patternlessNet : Net := fun url =>
  if url = fixtureEmbedUrl then .success 200 "<html>nothing here</html>"
  else .rejected

/-- A trailing-slash embed URL: its pathname's last split element is
empty although a non-empty segment exists earlier. -/
def slashEmbedUrl : String := "https://dood.li/e/abc123/"

def slashNet : Net := fun url =>
  if url = slashEmbedUrl then .success 200 fixtureContent
  else if url = fixturePassUrl then .success 200 fixtureBody
  else .rejected

/-- A scheme-relative pass_md5 fragment: a relative reference whose
resolution keeps its own host. -/
def schemeRelFragment : String := "//cdn.example/pass_md5/9876/x"

/-- Embed-page fixture whose pass_md5 fragment is scheme-relative. -/
def schemeRelContent : String :=
  "$.get(" ++ sq ++ schemeRelFragment ++ sq ++ "); no further data"

/-- Two distinct random streams that happen to make identical draws. -/
def constRandA : Nat → Fin 62 := fun _ => ⟨0, by decide⟩

def constRandB : Nat → Fin 62 := fun i => ⟨i - i, by omega⟩

/-! ### Helper lemmas -/

theorem randomChars_length : RANDOM_STRING_CHARS.data.length = 62 := rfl

theorem jsCharAt_of_lt (s : String) (k : Nat) (h : k < s.data.length) :
    jsCharAt s k = ⟨[s.data.get ⟨k, h⟩]⟩ := by
  unfold jsCharAt
  rw [List.get?_eq_get h]

theorem genRandomAux (rand : Nat → Fin 62) (l : List Nat) :
    ∀ init : String,
      ((l.foldl (fun r i => r ++ jsCharAt RANDOM_STRING_CHARS (rand i).val)
          init).data.length = init.data.length + l.length)
      ∧ ∀ c ∈ (l.foldl (fun r i => r ++ jsCharAt RANDOM_STRING_CHARS
          (rand i).val) init).data,
          c ∈ init.data ∨ c ∈ RANDOM_STRING_CHARS.data := by
  induction l with
  | nil =>
    intro init
    exact ⟨by simp, fun c hc => Or.inl (by simpa using hc)⟩
  | cons i t ih =>
    intro init
    have hlt : (rand i).val < RANDOM_STRING_CHARS.data.length := by
      rw [randomChars_length]; exact (rand i).isLt
    have hchar := jsCharAt_of_lt RANDOM_STRING_CHARS (rand i).val hlt
    have hmem : RANDOM_STRING_CHARS.data.get ⟨(rand i).val, hlt⟩
        ∈ RANDOM_STRING_CHARS.data := List.get_mem _ _ _
    have hdata : (init ++ jsCharAt RANDOM_STRING_CHARS (rand i).val).data
        = init.data ++ [RANDOM_STRING_CHARS.data.get ⟨(rand i).val, hlt⟩] := by
      rw [String.data_append, hchar]
    constructor
    · rw [List.foldl_cons, (ih _).1, hdata]
      simp only [List.length_append, List.length_cons, List.length_nil]
      omega
    · intro c hc
      rw [List.foldl_cons] at hc
      rcases (ih _).2 c hc with h | h
      · rw [hdata] at h
        rcases List.mem_append.mp h with h | h
        · exact Or.inl h
        · refine Or.inr ?_
          rw [List.mem_singleton.mp h]
          exact hmem
      · exact Or.inr h

theorem generateRandomString_length (rand : Nat → Fin 62) (n : Nat) :
    (generateRandomString rand n).length = n := by
  have h := (genRandomAux rand (List.range n) "").1
  show (generateRandomString rand n).data.length = n
  unfold generateRandomString
  rw [h]
  simp

theorem generateRandomString_mem (rand : Nat → Fin 62) (n : Nat) :
    ∀ c ∈ (generateRandomString rand n).data, c ∈ RANDOM_STRING_CHARS.data := by
  intro c hc
  unfold generateRandomString at hc
  rcases (genRandomAux rand (List.range n) "").2 c hc with h | h
  · exact absurd h (List.not_mem_nil c)
  · exact h

theorem digitChar_isDigit : ∀ m, m < 10 → (Nat.digitChar m).isDigit = true := by
  decide

theorem digitChar_decode : ∀ m, m < 10 → (Nat.digitChar m).toNat - 48 = m := by
  decide

theorem toDigitsCore_isDigit : ∀ (fuel n : Nat) (acc : List Char),
    (∀ c ∈ acc, c.isDigit = true) →
    ∀ c ∈ Nat.toDigitsCore 10 fuel n acc, c.isDigit = true := by
  intro fuel
  induction fuel with
  | zero => intro n acc hacc; simpa [Nat.toDigitsCore] using hacc
  | succ f ih =>
    intro n acc hacc c hc
    have hd : (Nat.digitChar (n % 10)).isDigit = true :=
      digitChar_isDigit _ (Nat.mod_lt _ (by decide))
    simp only [Nat.toDigitsCore] at hc
    by_cases h0 : n / 10 = 0
    · rw [if_pos h0] at hc
      rcases List.mem_cons.mp hc with h | h
      · exact h ▸ hd
      · exact hacc c h
    · rw [if_neg h0] at hc
      refine ih (n / 10) (Nat.digitChar (n % 10) :: acc) ?_ c hc
      intro c' hc'
      rcases List.mem_cons.mp hc' with h | h
      · exact h ▸ hd
      · exact hacc c' h

theorem repr_data_isDigit (n : Nat) :
    ∀ c ∈ (Nat.repr n).data, c.isDigit = true := by
  have h := toDigitsCore_isDigit (n + 1) n [] (by simp)
  simpa [Nat.repr, Nat.toDigits, List.asString] using h

theorem decodeDigits_cons (a : Nat) (c : Char) (l : List Char) :
    decodeDigits a (c :: l) = decodeDigits (a * 10 + (c.toNat - 48)) l := rfl

theorem toDigitsCore_decode : ∀ (fuel n : Nat) (acc : List Char), n ≤ fuel →
    decodeDigits 0 (Nat.toDigitsCore 10 (fuel + 1) n acc) = decodeDigits n acc := by
  intro fuel
  induction fuel with
  | zero =>
    intro n acc hn
    have hn0 : n = 0 := Nat.le_zero.mp hn
    subst hn0
    have hstep : Nat.toDigitsCore 10 1 0 acc = Nat.digitChar (0 % 10) :: acc := rfl
    rw [hstep, decodeDigits_cons]
    have harg : 0 * 10 + ((Nat.digitChar (0 % 10)).toNat - 48) = 0 := by decide
    rw [harg]
  | succ f ih =>
    intro n acc hn
    by_cases h0 : n / 10 = 0
    · have hstep : Nat.toDigitsCore 10 (f + 1 + 1) n acc
          = Nat.digitChar (n % 10) :: acc := by
        simp [Nat.toDigitsCore, h0]
      rw [hstep, decodeDigits_cons,
        digitChar_decode _ (Nat.mod_lt _ (by decide))]
      have : n % 10 = n := by omega
      rw [this]
      simp
    · have hstep : Nat.toDigitsCore 10 (f + 1 + 1) n acc
          = Nat.toDigitsCore 10 (f + 1) (n / 10)
              (Nat.digitChar (n % 10) :: acc) := by
        simp [Nat.toDigitsCore, h0]
      have hle : n / 10 ≤ f := by omega
      rw [hstep, ih (n / 10) _ hle, decodeDigits_cons,
        digitChar_decode _ (Nat.mod_lt _ (by decide))]
      congr 1
      omega

theorem decodeDigits_nil (n : Nat) : decodeDigits n [] = n := rfl

theorem repr_injective {m n : Nat} (h : Nat.repr m = Nat.repr n) : m = n := by
  have hdata : Nat.toDigits 10 m = Nat.toDigits 10 n := by
    have hc := congrArg String.data h
    simpa [Nat.repr, List.asString] using hc
  have hm := toDigitsCore_decode m m [] (Nat.le_refl m)
  have hn := toDigitsCore_decode n n [] (Nat.le_refl n)
  have hmn : decodeDigits 0 (Nat.toDigitsCore 10 (m + 1) m [])
      = decodeDigits 0 (Nat.toDigitsCore 10 (n + 1) n []) := by
    show decodeDigits 0 (Nat.toDigits 10 m) = decodeDigits 0 (Nat.toDigits 10 n)
    rw [hdata]
  rw [hm, hn] at hmn
  simpa [decodeDigits_nil] using hmn

theorem makeRequest_ok (net : Net) (url : String) (s : Nat) (b : String)
    (hf : net url = .success s b) (hok : responseOk s = true) :
    makeRequest net url = (.ok (s, b), [.armTimer, .fetchCall url, .clearTimer]) := by
  simp [makeRequest, hf, hok]

theorem makeRequest_badStatus (net : Net) (url : String) (s : Nat) (b : String)
    (hf : net url = .success s b) (hok : responseOk s = false) :
    makeRequest net url
      = (.error (.httpError s), [.armTimer, .fetchCall url, .clearTimer]) := by
  simp [makeRequest, hf, hok]

theorem extractPassMd5Url_some (content u frag : String)
    (h : extractData .passMd5Pattern content = some frag) :
    extractPassMd5Url content u = .ok (resolvedPassMd5 frag) := by
  simp [extractPassMd5Url, h]

theorem extractPassMd5Url_none (content u : String)
    (h : extractData .passMd5Pattern content = none) :
    extractPassMd5Url content u = .error (.passMd5NotFound u) := by
  simp [extractPassMd5Url, h]

theorem extractToken_some (content u token : String)
    (h : extractData .tokenPattern content = some token) :
    extractToken content u = .ok token := by
  simp [extractToken, h]

theorem extractToken_none (content u : String)
    (h : extractData .tokenPattern content = none) :
    extractToken content u = .error (.tokenNotFound u) := by
  simp [extractToken, h]

theorem getVideoBaseUrl_ok (net : Net) (purl : String) (s : Nat) (b : String)
    (hf : net purl = .success s b) (hok : responseOk s = true)
    (hb : jsTrim b ≠ "") :
    getVideoBaseUrl net purl
      = (.ok (jsTrim b), [.armTimer, .fetchCall purl, .clearTimer]) := by
  unfold getVideoBaseUrl
  rw [makeRequest_ok net purl s b hf hok]
  simp [hb]

theorem getVideoBaseUrl_blank (net : Net) (purl : String) (s : Nat) (b : String)
    (hf : net purl = .success s b) (hok : responseOk s = true)
    (hb : jsTrim b = "") :
    getVideoBaseUrl net purl
      = (.error .emptyVideoBaseUrl, [.armTimer, .fetchCall purl, .clearTimer]) := by
  unfold getVideoBaseUrl
  rw [makeRequest_ok net purl s b hf hok]
  simp [hb]

theorem getVideoBaseUrl_badStatus (net : Net) (purl : String) (s : Nat) (b : String)
    (hf : net purl = .success s b) (hok : responseOk s = false) :
    getVideoBaseUrl net purl
      = (.error (.httpError s), [.armTimer, .fetchCall purl, .clearTimer]) := by
  unfold getVideoBaseUrl
  rw [makeRequest_badStatus net purl s b hf hok]

theorem getDirectLink_success (net : Net) (rand : Nat → Fin 62) (nowMs : Nat)
    (u content frag token : String) (s1 s2 : Nat) (body : String)
    (hu : u ≠ "") (h1 : net u = .success s1 content)
    (hok1 : responseOk s1 = true)
    (hpass : extractData .passMd5Pattern content = some frag)
    (htok : extractData .tokenPattern content = some token)
    (h2 : net (resolvedPassMd5 frag) = .success s2 body)
    (hok2 : responseOk s2 = true)
    (hb : jsTrim body ≠ "") :
    getDirectLink net rand nowMs (some u)
      = (.ok (buildDirectLink rand nowMs (jsTrim body) token),
         [.armTimer, .fetchCall u, .clearTimer,
          .armTimer, .fetchCall (resolvedPassMd5 frag), .clearTimer,
          .buildLink]) := by
  have hreq := makeRequest_ok net u s1 content h1 hok1
  have hp := extractPassMd5Url_some content u frag hpass
  have ht := extractToken_some content u token htok
  have hv := getVideoBaseUrl_ok net (resolvedPassMd5 frag) s2 body h2 hok2 hb
  simp [getDirectLink, hu, hreq, hp, ht, hv]

/-! ### Claim theorems -/

/-- Claim C1: for every non-empty embed URL whose fetched page content
matches both the pass_md5 pattern and the token pattern, and whose
pass_md5 fetch returns a non-blank body, `getDirectLink` returns
`videoBaseUrl ++ r ++ "?token=" ++ token ++ "&expiry=" ++ expiry`, where
`r` is exactly 10 characters drawn from the 62-character alphanumeric
alphabet and `expiry` is the current Unix time in whole seconds, a digit
string. -/
theorem claim_C1 (net : Net) (rand : Nat → Fin 62) (nowMs : Nat)
    (u content frag token : String) (s1 s2 : Nat) (body : String)
    (hu : u ≠ "") (h1 : net u = .success s1 content)
    (hok1 : responseOk s1 = true)
    (hpass : extractData .passMd5Pattern content = some frag)
    (htok : extractData .tokenPattern content = some token)
    (h2 : net (resolvedPassMd5 frag) = .success s2 body)
    (hok2 : responseOk s2 = true)
    (hb : jsTrim body ≠ "") :
    (getDirectLink net rand nowMs (some u)).1
      = .ok (jsTrim body ++ generateRandomString rand 10 ++ "?token=" ++
             token ++ "&expiry=" ++ Nat.repr (nowMs / 1000))
    ∧ (generateRandomString rand 10).length = 10
    ∧ (∀ c ∈ (generateRandomString rand 10).data,
        c ∈ RANDOM_STRING_CHARS.data)
    ∧ ∀ c ∈ (Nat.repr (nowMs / 1000)).data, c.isDigit = true := by
  have h := getDirectLink_success net rand nowMs u content frag token s1 s2
    body hu h1 hok1 hpass htok h2 hok2 hb
  refine ⟨?_, generateRandomString_length rand 10,
    generateRandomString_mem rand 10, repr_data_isDigit (nowMs / 1000)⟩
  rw [h]
  simp [buildDirectLink]

/-- Witness for C1 at the concrete fixture. -/
theorem claim_C1_witness :
    (getDirectLink fixtureNet fixtureRand 12345678 (some fixtureEmbedUrl)).1
      = .ok (jsTrim fixtureBody ++ generateRandomString fixtureRand 10 ++
             "?token=" ++ fixtureToken ++ "&expiry=" ++
             Nat.repr (12345678 / 1000))
    ∧ (generateRandomString fixtureRand 10).length = 10 := by
  have h := claim_C1 fixtureNet fixtureRand 12345678 fixtureEmbedUrl
    fixtureContent fixturePassFragment fixtureToken 200 200 fixtureBody
    (by decide) (by decide) (by decide) (by decide) (by decide) (by decide)
    (by decide) (by decide)
  exact ⟨h.1, h.2.1⟩

/-- Claim C2: a `null`/absent or empty-string input to `getDirectLink`
fails with the `InvalidInput` error (`Embed URL cannot be empty`) with an
empty event trace, so the failure occurs before any fetch. -/
theorem claim_C2 (net : Net) (rand : Nat → Fin 62) (nowMs : Nat) :
    getDirectLink net rand nowMs none = (.error .emptyEmbedUrl, [])
    ∧ getDirectLink net rand nowMs (some "") =
        (.error .emptyEmbedUrl, []) := by
  exact ⟨rfl, by simp [getDirectLink]⟩

/-- Claim C3: for page content matching the pass_md5 pattern but not the
token pattern, `getDirectLink` fails with the token `ExtractionError`
whose message names the token and the embed URL, and the trace shows a
single fetch — the pass_md5 URL is never requested. -/
theorem claim_C3 (net : Net) (rand : Nat → Fin 62) (nowMs : Nat)
    (u content frag : String) (s : Nat)
    (hu : u ≠ "") (h1 : net u = .success s content)
    (hok : responseOk s = true)
    (hpass : extractData .passMd5Pattern content = some frag)
    (htok : extractData .tokenPattern content = none) :
    getDirectLink net rand nowMs (some u)
      = (.error (.tokenNotFound u), [.armTimer, .fetchCall u, .clearTimer])
    ∧ (JsError.tokenNotFound u).message = "Token not found in " ++ u
    ∧ ∀ v, Event.fetchCall v ∈ (getDirectLink net rand nowMs (some u)).2 →
        v = u := by
  have hreq := makeRequest_ok net u s content h1 hok
  have hp := extractPassMd5Url_some content u frag hpass
  have ht := extractToken_none content u htok
  have hmain : getDirectLink net rand nowMs (some u)
      = (.error (.tokenNotFound u),
         [.armTimer, .fetchCall u, .clearTimer]) := by
    simp [getDirectLink, hu, hreq, hp, ht]
  refine ⟨hmain, rfl, ?_⟩
  intro v hv
  rw [hmain] at hv
  simpa using hv

/-- Witness for C3 at the concrete token-less fixture. -/
theorem claim_C3_witness :
    getDirectLink tokenlessNet fixtureRand 0 (some fixtureEmbedUrl)
      = (.error (.tokenNotFound fixtureEmbedUrl),
         [.armTimer, .fetchCall fixtureEmbedUrl, .clearTimer])
    ∧ (JsError.tokenNotFound fixtureEmbedUrl).message
        = "Token not found in " ++ fixtureEmbedUrl := by
  have h := claim_C3 tokenlessNet fixtureRand 0 fixtureEmbedUrl
    tokenlessContent fixturePassFragment 200
    (by decide) (by decide) (by decide) (by decide) (by decide)
  exact ⟨h.1, h.2.1⟩

/-- Claim C4: when the pass_md5 response body is empty or whitespace-only
after trimming, the pipeline fails with the `EmptyResponse` error and the
link builder is never reached. -/
theorem claim_C4 (net : Net) (rand : Nat → Fin 62) (nowMs : Nat)
    (u content frag token : String) (s1 s2 : Nat) (body : String)
    (hu : u ≠ "") (h1 : net u = .success s1 content)
    (hok1 : responseOk s1 = true)
    (hpass : extractData .passMd5Pattern content = some frag)
    (htok : extractData .tokenPattern content = some token)
    (h2 : net (resolvedPassMd5 frag) = .success s2 body)
    (hok2 : responseOk s2 = true)
    (hblank : jsTrim body = "") :
    (getDirectLink net rand nowMs (some u)).1 = .error .emptyVideoBaseUrl
    ∧ Event.buildLink ∉ (getDirectLink net rand nowMs (some u)).2 := by
  have hreq := makeRequest_ok net u s1 content h1 hok1
  have hp := extractPassMd5Url_some content u frag hpass
  have ht := extractToken_some content u token htok
  have hv := getVideoBaseUrl_blank net (resolvedPassMd5 frag) s2 body h2
    hok2 hblank
  have hmain : getDirectLink net rand nowMs (some u)
      = (.error .emptyVideoBaseUrl,
         [.armTimer, .fetchCall u, .clearTimer,
          .armTimer, .fetchCall (resolvedPassMd5 frag), .clearTimer]) := by
    simp [getDirectLink, hu, hreq, hp, ht, hv]
  constructor
  · rw [hmain]
  · rw [hmain]
    simp

/-- Witness for C4 at the concrete blank-body fixture. -/
theorem claim_C4_witness :
    (getDirectLink blankBodyNet fixtureRand 0 (some fixtureEmbedUrl)).1
      = .error .emptyVideoBaseUrl
    ∧ Event.buildLink ∉
        (getDirectLink blankBodyNet fixtureRand 0 (some fixtureEmbedUrl)).2 :=
  claim_C4 blankBodyNet fixtureRand 0 fixtureEmbedUrl fixtureContent
    fixturePassFragment fixtureToken 200 200 "  \n\t "
    (by decide) (by decide) (by decide) (by decide) (by decide) (by decide)
    (by decide) (by decide)

theorem slash_head_not_http (frag : String)
    (hslash : ("/".data).isPrefixOf frag.data = true) :
    ("http".data).isPrefixOf frag.data = false := by
  cases hd : frag.data with
  | nil => rw [hd] at hslash; simp [List.isPrefixOf] at hslash
  | cons b bs =>
    rw [hd] at hslash
    simp only [List.isPrefixOf, List.isPrefixOf_nil_left, Bool.and_true,
      beq_iff_eq] at hslash
    simp [List.isPrefixOf, ← hslash]

theorem slash_head_no_scheme (frag : String)
    (hslash : ("/".data).isPrefixOf frag.data = true) :
    hasUrlScheme frag = false := by
  cases hd : frag.data with
  | nil => rw [hd] at hslash; simp [List.isPrefixOf] at hslash
  | cons b bs =>
    rw [hd] at hslash
    simp only [List.isPrefixOf, List.isPrefixOf_nil_left, Bool.and_true,
      beq_iff_eq] at hslash
    unfold hasUrlScheme
    rw [hd, ← hslash]
    have halpha : ('/' : Char).isAlpha = false := by decide
    simp [halpha]

theorem doubleSlash_single (frag : String)
    (h2 : ("//".data).isPrefixOf frag.data = true) :
    ("/".data).isPrefixOf frag.data = true := by
  have h2' : ['/', '/'].isPrefixOf frag.data = true := h2
  show ['/'].isPrefixOf frag.data = true
  cases hl : frag.data with
  | nil => rw [hl] at h2'; simp [List.isPrefixOf] at h2'
  | cons b bs =>
    rw [hl] at h2'
    simp only [List.isPrefixOf, Bool.and_eq_true, beq_iff_eq] at h2' ⊢
    exact ⟨h2'.1, by simp⟩

/-- Claim C5 (amended): a fragment starting with `http` is used
unchanged; a root-relative fragment (`/…` but not `//…`) and a
scheme-less bare-relative fragment are resolved rooted at the service
origin `https://dood.li`; but a scheme-relative fragment (`//host/…`) is
resolved to `https:` ++ fragment — rooted at its own host, not the
service origin — and a non-`http` scheme-bearing fragment (e.g.
`ftp://…`) is kept as its own absolute URL.  So not every relative
fragment resolves rooted at the service origin. -/
theorem claim_C5 (content u frag : String)
    (h : extractData .passMd5Pattern content = some frag) :
    (("http".data).isPrefixOf frag.data = true →
      extractPassMd5Url content u = .ok frag)
    ∧ (("/".data).isPrefixOf frag.data = true →
       ("//".data).isPrefixOf frag.data = false →
      extractPassMd5Url content u = .ok (DOODSTREAM_BASE_URL ++ frag))
    ∧ (("http".data).isPrefixOf frag.data = false →
       ("/".data).isPrefixOf frag.data = false →
       hasUrlScheme frag = false →
      extractPassMd5Url content u
        = .ok (DOODSTREAM_BASE_URL ++ "/" ++ frag))
    ∧ (("//".data).isPrefixOf frag.data = true →
      extractPassMd5Url content u = .ok ("https:" ++ frag))
    ∧ (("http".data).isPrefixOf frag.data = false →
       hasUrlScheme frag = true →
      extractPassMd5Url content u = .ok frag) := by
  refine ⟨?_, ?_, ?_, ?_, ?_⟩
  · intro hhttp
    rw [extractPassMd5Url_some content u frag h]
    simp [resolvedPassMd5, hhttp]
  · intro hslash hnodouble
    rw [extractPassMd5Url_some content u frag h]
    have hnothttp := slash_head_not_http frag hslash
    have hnoscheme := slash_head_no_scheme frag hslash
    simp [resolvedPassMd5, hnothttp, jsUrlResolve, hnoscheme, hnodouble,
      hslash]
  · intro hnothttp hnoslash hnoscheme
    rw [extractPassMd5Url_some content u frag h]
    have hnodouble : ("//".data).isPrefixOf frag.data = false := by
      rcases Bool.eq_false_or_eq_true (("//".data).isPrefixOf frag.data)
        with hx | hx
      · exact absurd (doubleSlash_single frag hx) (by rw [hnoslash]; simp)
      · exact hx
    simp [resolvedPassMd5, hnothttp, jsUrlResolve, hnoscheme, hnodouble,
      hnoslash]
  · intro hdouble
    rw [extractPassMd5Url_some content u frag h]
    have hslash := doubleSlash_single frag hdouble
    have hnothttp := slash_head_not_http frag hslash
    have hnoscheme := slash_head_no_scheme frag hslash
    simp [resolvedPassMd5, hnothttp, jsUrlResolve, hnoscheme, hdouble]
  · intro hnothttp hscheme
    rw [extractPassMd5Url_some content u frag h]
    simp [resolvedPassMd5, hnothttp, jsUrlResolve, hscheme]

/-- Counterexample for C5 as stated: the extractable scheme-relative
fragment `//cdn.example/pass_md5/9876/x` is a relative reference, yet
the pipeline resolves it to `https://cdn.example/…`, which is not rooted
at the service origin `https://dood.li`. -/
theorem claim_C5_counterexample :
    extractData .passMd5Pattern schemeRelContent = some schemeRelFragment
    ∧ extractPassMd5Url schemeRelContent fixtureEmbedUrl
        = .ok "https://cdn.example/pass_md5/9876/x"
    ∧ ((DOODSTREAM_BASE_URL.data).isPrefixOf
        ("https://cdn.example/pass_md5/9876/x" : String).data) = false :=
  ⟨by decide, by decide, by decide⟩

/-- Witness for C5: the fixture's root-relative `/pass_md5/…` fragment
resolves to the service origin. -/
theorem claim_C5_witness :
    extractPassMd5Url fixtureContent fixtureEmbedUrl
      = .ok (DOODSTREAM_BASE_URL ++ fixturePassFragment) :=
  (claim_C5 fixtureContent fixtureEmbedUrl fixturePassFragment
    (by decide)).2.1 (by decide) (by decide)

/-- Claim C6 (amended): on every embed URL on which `getDirectLink`
succeeds, `getMetadata` returns quality `"Unknown"`, size `null`, and a
name of `doodstream_<fileId>.mp4` where `fileId` is the *last* element of
`pathname.split("/")` with `"video"` substituted when that element is
empty — not the last non-empty segment. -/
theorem claim_C6 (net : Net) (rand : Nat → Fin 62) (nowMs : Nat)
    (u link : String) (evs : List Event)
    (h : getDirectLink net rand nowMs (some u) = (.ok link, evs)) :
    getMetadata net rand nowMs (some u)
      = (.ok { mp4 := link, name := deriveFileName u, quality := "Unknown",
               size := none, headers := getHeaders }, evs) := by
  simp [getMetadata, h]

/-- Counterexample for C6 as stated: on the trailing-slash URL
`https://dood.li/e/abc123/` the code produces `doodstream_video.mp4`
although the last non-empty path segment is `abc123`. -/
theorem claim_C6_counterexample :
    ((getMetadata slashNet fixtureRand 12345678 (some slashEmbedUrl)).1.map
        Metadata.name) = .ok "doodstream_video.mp4"
    ∧ lastNonEmptySegmentSpec slashEmbedUrl = some "abc123"
    ∧ ("doodstream_video.mp4" : String)
        ≠ "doodstream_" ++ "abc123" ++ ".mp4" :=
  ⟨by decide, by decide, by decide⟩

/-- Witness for C6 at the concrete fixture, where the claimed example
`doodstream_abc123.mp4` does hold. -/
theorem claim_C6_witness :
    getMetadata fixtureNet fixtureRand 12345678 (some fixtureEmbedUrl)
      = (.ok { mp4 := "https://c1.example-cdn.net/xyz~999/ABCDEFGHIJ?token=tok3n42&expiry=12345",
               name := "doodstream_abc123.mp4", quality := "Unknown",
               size := none, headers := getHeaders },
         [.armTimer, .fetchCall fixtureEmbedUrl, .clearTimer,
          .armTimer, .fetchCall fixturePassUrl, .clearTimer,
          .buildLink]) := by
  have h := claim_C6 fixtureNet fixtureRand 12345678 fixtureEmbedUrl
    "https://c1.example-cdn.net/xyz~999/ABCDEFGHIJ?token=tok3n42&expiry=12345"
    [.armTimer, .fetchCall fixtureEmbedUrl, .clearTimer,
     .armTimer, .fetchCall fixturePassUrl, .clearTimer, .buildLink]
    (by decide)
  rw [h]
  decide

/-- Claim C7 (code bug): when `fetch` itself rejects — a network error,
or the abort fired — `_makeRequest` re-throws out of the `try` block
without ever calling `clearTimeout`: the timer is armed and the fetch is
issued, but no `clearTimer` event occurs on this failure exit path, so a
settled (failed) request leaves the timer behind. -/
theorem claim_C7_bug :
    makeRequest (fun _ => FetchOutcome.rejected) "https://dood.li/e/x"
      = (.error .fetchRejected,
         [.armTimer, .fetchCall "https://dood.li/e/x"])
    ∧ Event.clearTimer ∉
        (makeRequest (fun _ => FetchOutcome.rejected)
          "https://dood.li/e/x").2
    ∧ Event.armTimer ∈
        (makeRequest (fun _ => FetchOutcome.rejected)
          "https://dood.li/e/x").2 :=
  ⟨rfl, by decide, by decide⟩

/-- Claim C8 (amended): the direct link is a deterministic function of
the video base URL, the token, the generated random suffix and the expiry
second; two invocations with identical input produce an identical link
exactly when their fresh draws coincide — which `Math.random`/`Date.now`
do not preclude. -/
theorem claim_C8 (rand1 rand2 : Nat → Fin 62) (n1 n2 : Nat)
    (v t : String) :
    buildDirectLink rand1 n1 v t = buildDirectLink rand2 n2 v t ↔
      (generateRandomString rand1 10 = generateRandomString rand2 10
        ∧ n1 / 1000 = n2 / 1000) := by
  constructor
  · intro h
    have h10a : (generateRandomString rand1 10).data.length = 10 :=
      generateRandomString_length rand1 10
    have h10b : (generateRandomString rand2 10).data.length = 10 :=
      generateRandomString_length rand2 10
    have hd := congrArg String.data h
    simp only [buildDirectLink, String.data_append, List.append_assoc] at hd
    have hd1 := List.append_cancel_left hd
    rcases List.append_inj hd1 (by rw [h10a, h10b]) with ⟨hgs, hrest⟩
    have hrest1 := List.append_cancel_left hrest
    have hrest2 := List.append_cancel_left hrest1
    have hrest3 := List.append_cancel_left hrest2
    exact ⟨String.ext hgs, repr_injective (String.ext hrest3)⟩
  · intro h
    rcases h with ⟨hgs, he⟩
    simp only [buildDirectLink]
    rw [hgs, he]

/-- Counterexample for C8 as stated: two invocations over identical
fetched content whose fresh random draws and timestamp happen to coincide
return the *same* direct link, so "never identical" fails. -/
theorem claim_C8_counterexample :
    (getDirectLink fixtureNet constRandA 999 (some fixtureEmbedUrl)).1
      = (getDirectLink fixtureNet constRandB 999 (some fixtureEmbedUrl)).1
    ∧ (getDirectLink fixtureNet constRandA 999 (some fixtureEmbedUrl)).1
      = .ok "https://c1.example-cdn.net/xyz~999/AAAAAAAAAA?token=tok3n42&expiry=0" :=
  ⟨by decide, by decide⟩

/-- Claim C9: a non-success HTTP status makes the Fetcher fail with an
`HttpError` carrying that status, and the failure propagates unchanged
through `getDirectLink` from either fetch. -/
theorem claim_C9 (net : Net) (rand : Nat → Fin 62) (nowMs : Nat) :
    (∀ url s b, net url = .success s b → responseOk s = false →
      (makeRequest net url).1 = .error (.httpError s))
    ∧ (∀ u s b, u ≠ "" → net u = .success s b → responseOk s = false →
      (getDirectLink net rand nowMs (some u)).1 = .error (.httpError s))
    ∧ (∀ u content frag token s1 s2 b2, u ≠ "" →
        net u = .success s1 content → responseOk s1 = true →
        extractData .passMd5Pattern content = some frag →
        extractData .tokenPattern content = some token →
        net (resolvedPassMd5 frag) = .success s2 b2 →
        responseOk s2 = false →
      (getDirectLink net rand nowMs (some u)).1
        = .error (.httpError s2)) := by
  refine ⟨?_, ?_, ?_⟩
  · intro url s b hf hok
    rw [makeRequest_badStatus net url s b hf hok]
  · intro u s b hu hf hok
    have hreq := makeRequest_badStatus net u s b hf hok
    simp [getDirectLink, hu, hreq]
  · intro u content frag token s1 s2 b2 hu h1 hok1 hpass htok h2 hok2
    have hreq := makeRequest_ok net u s1 content h1 hok1
    have hp := extractPassMd5Url_some content u frag hpass
    have ht := extractToken_some content u token htok
    have hv := getVideoBaseUrl_badStatus net (resolvedPassMd5 frag) s2 b2
      h2 hok2
    simp [getDirectLink, hu, hreq, hp, ht, hv]

/-- Witness for C9: a 404 on the embed fetch and a 503 on the pass_md5
fetch each surface as the matching `HttpError`. -/
theorem claim_C9_witness :
    (getDirectLink net404 fixtureRand 0 (some fixtureEmbedUrl)).1
      = .error (.httpError 404)
    ∧ (getDirectLink net503 fixtureRand 0 (some fixtureEmbedUrl)).1
      = .error (.httpError 503) :=
  ⟨(claim_C9 net404 fixtureRand 0).2.1 fixtureEmbedUrl 404 "not found"
      (by decide) (by decide) (by decide),
   (claim_C9 net503 fixtureRand 0).2.2 fixtureEmbedUrl fixtureContent
      fixturePassFragment fixtureToken 200 503 "busy"
      (by decide) (by decide) (by decide) (by decide) (by decide)
      (by decide) (by decide)⟩

/-- Claim C10 (implicit): the pass_md5 extraction runs before the token
extraction, so content matching neither pattern fails with the pass_md5
`ExtractionError`, never the token one. -/
theorem claim_C10 (net : Net) (rand : Nat → Fin 62) (nowMs : Nat)
    (u content : String) (s : Nat)
    (hu : u ≠ "") (h1 : net u = .success s content)
    (hok : responseOk s = true)
    (hpass : extractData .passMd5Pattern content = none)
    (htok : extractData .tokenPattern content = none) :
    (getDirectLink net rand nowMs (some u)).1
      = .error (.passMd5NotFound u)
    ∧ ∀ v, (getDirectLink net rand nowMs (some u)).1
        ≠ .error (.tokenNotFound v) := by
  have hreq := makeRequest_ok net u s content h1 hok
  have hp := extractPassMd5Url_none content u hpass
  have hmain : (getDirectLink net rand nowMs (some u)).1
      = .error (.passMd5NotFound u) := by
    simp [getDirectLink, hu, hreq, hp]
  refine ⟨hmain, ?_⟩
  intro v
  rw [hmain]
  simp

/-- Witness for C10 at the concrete pattern-less fixture. -/
theorem claim_C10_witness :
    (getDirectLink patternlessNet fixtureRand 0 (some fixtureEmbedUrl)).1
      = .error (.passMd5NotFound fixtureEmbedUrl)
    ∧ (getDirectLink patternlessNet fixtureRand 0 (some fixtureEmbedUrl)).1
      ≠ .error (.tokenNotFound fixtureEmbedUrl) := by
  have h := claim_C10 patternlessNet fixtureRand 0 fixtureEmbedUrl
    "<html>nothing here</html>" 200
    (by decide) (by decide) (by decide) (by decide) (by decide)
  exact ⟨h.1, h.2 fixtureEmbedUrl⟩

end Doodstream
